import Mathlib

/-
Verification of the EventSub client in src/main.py against its
natural-language specification.

The embedding models the Python program shallowly:
- JSON values (as produced by json.loads) are the inductive `Json`;
- Python dictionary access is modelled exactly: `d.get(k)` is `Json.get`
  (an AttributeError when the receiver is not a dict), `d[k]` is
  `Json.index` (a KeyError when the key is absent);
- Python exceptions are `Except String`; an uncaught exception propagates
  through the surrounding code, exactly as in the source, which contains
  no try/except;
- side effects (print calls and the outbound Helix chat POST) are recorded
  as values of the inductive `Effect`;
- the mutable set seen_message_ids is threaded explicitly as a list of
  JSON values compared with structural equality `Json.beq`.
-/

/-- A JSON value as produced by json.loads. -/
inductive Json where
  | null
  | bool (b : Bool)
  | str (s : String)
  | num (n : Int)
  | obj (fields : List (String × Json))

/-- Structural equality of JSON values, modelling Python `==` / set
membership on values parsed from JSON. -/
def Json.beq : Json → Json → Bool
  | .null, .null => true
  | .bool a, .bool b => a == b
  | .str a, .str b => a == b
  | .num a, .num b => a == b
  | .obj a, .obj b => beqFields a b
  | _, _ => false
where beqFields : List (String × Json) → List (String × Json) → Bool
  | [], [] => true
  | (k1, v1) :: r1, (k2, v2) :: r2 => k1 == k2 && Json.beq v1 v2 && beqFields r1 r2
  | _, _ => false

/-- Python truthiness of a JSON value, as used in `if mid:`. -/
def Json.truthy : Json → Bool
  | .null => false
  | .bool b => b
  | .str s => s != ""
  | .num n => n != 0
  | .obj fs => !fs.isEmpty

/-- Python `d.get(k)`: `none` when the key is absent, AttributeError when
the receiver is not a dict. -/
def Json.get (j : Json) (k : String) : Except String (Option Json) :=
  match j with
  | .obj fs => .ok (List.lookup k fs)
  | _ => .error ("AttributeError: get on non-dict for key " ++ k)

/-- Python `d[k]`: KeyError when the key is absent, TypeError when the
receiver is not a dict. -/
def Json.index (j : Json) (k : String) : Except String Json :=
  match j with
  | .obj fs =>
      match List.lookup k fs with
      | some v => .ok v
      | none => .error ("KeyError: " ++ k)
  | _ => .error ("TypeError: bad subscript " ++ k)

/-- Python `x == "s"` where `x` came from `.get` (so it may be None): only
a JSON string can compare equal to a string literal. -/
def isStrEq (x : Option Json) (s : String) : Bool :=
  match x with
  | some (.str t) => t == s
  | _ => false

/-- Sequencing of a fallible lookup inside code that also records side
effects: an exception discards nothing already printed by the CALLER but
aborts the continuation, as in Python. -/
def withJ (x : Except String α) (f : α → List β × Except String Unit) :
    List β × Except String Unit :=
  match x with
  | .error e => ([], .error e)
  | .ok v => f v

/-- `msg.get("metadata", {}).get(k)`, exactly as written in the source. -/
def metaGet (msg : Json) (k : String) : Except String (Option Json) :=
  match msg.get "metadata" with
  | .error e => .error e
  | .ok md => (md.getD (Json.obj [])).get k

/-- Membership of a JSON value in the seen_message_ids set. -/
def seenHas (seen : List Json) (j : Json) : Bool :=
  seen.any (fun x => Json.beq x j)

/-- Python `str.strip()`: surrounding whitespace removed. -/
def pyStrip (s : String) : String :=
  ⟨((s.data.dropWhile Char.isWhitespace).reverse.dropWhile Char.isWhitespace).reverse⟩

/-- Python `str.lower()`. -/
def pyLower (s : String) : String :=
  ⟨s.data.map Char.toLower⟩

/-- The JSON body submitted by send_chat_message to the Helix
chat/messages endpoint. -/
structure ChatPayload where
  broadcaster_id : String
  sender_id : String
  message : String

/-- send_chat_message (src/main.py lines 90-100): builds the POST body,
truncating the message to 500 characters (`message[:500]`). -/
def send_chat_message (broadcaster_id sender_id message : String) : ChatPayload :=
  { broadcaster_id := broadcaster_id, sender_id := sender_id, message := message.take 500 }

/-- Observable side effects of one pass of the session loop: each print
statement of a handler, and each invocation of the outbound send
capability, with the arguments the source passes. -/
inductive Effect where
  | printChat (chatter text : Json)
  | sendChat (broadcaster_id sender_id message : String)
  | printSub (user tier is_gift : Option Json)
  | printResub (user tier months : Option Json) (msg_text : Json)
  | printGift (gifter total tier : Option Json)
  | printCheer (user bits : Option Json) (msg_text : Json)
  | printRaid (raider viewers : Option Json)

/-- The if/elif dispatch on subscription_type (src/main.py lines 181-214).
`sendExc` is the behaviour of the outbound send capability: `some e`
means the POST inside send_chat_message raises `e`
(requests raise_for_status), `none` means it succeeds. -/
def dispatch (sendExc : Option String) (me_id : String)
    (sub_type : Option Json) (event : Json) :
    List Effect × Except String Unit :=
  if isStrEq sub_type "channel.chat.message" then
    withJ (event.index "chatter_user_login") fun chatter =>
    withJ (event.index "message") fun msgField =>
    withJ (msgField.index "text") fun textJ =>
    match textJ with
    | .str text =>
        if pyLower (pyStrip text) == "!ping" then
          match sendExc with
          | some e =>
              ([.printChat chatter textJ,
                .sendChat me_id me_id "pong (via Helix)"], .error e)
          | none =>
              ([.printChat chatter textJ,
                .sendChat me_id me_id "pong (via Helix)"], .ok ())
        else ([.printChat chatter textJ], .ok ())
    | _ => ([.printChat chatter textJ], .error "AttributeError: strip on non-str")
  else if isStrEq sub_type "channel.subscribe" then
    withJ (event.get "user_login") fun user =>
    withJ (event.get "tier") fun tier =>
    withJ (event.get "is_gift") fun is_gift =>
    ([.printSub user tier is_gift], .ok ())
  else if isStrEq sub_type "channel.subscription.message" then
    withJ (event.get "user_login") fun user =>
    withJ (event.get "tier") fun tier =>
    withJ (event.get "cumulative_months") fun months =>
    withJ (event.get "message") fun msgOpt =>
    withJ ((msgOpt.getD (Json.obj [])).get "text") fun textOpt =>
    ([.printResub user tier months (textOpt.getD (.str ""))], .ok ())
  else if isStrEq sub_type "channel.subscription.gift" then
    withJ (event.get "user_login") fun gifter =>
    withJ (event.get "total") fun total =>
    withJ (event.get "tier") fun tier =>
    ([.printGift gifter total tier], .ok ())
  else if isStrEq sub_type "channel.cheer" then
    withJ (event.get "user_login") fun user =>
    withJ (event.get "bits") fun bits =>
    withJ (event.get "message") fun msgOpt =>
    ([.printCheer user bits (msgOpt.getD (.str ""))], .ok ())
  else if isStrEq sub_type "channel.raid" then
    withJ (event.get "from_broadcaster_user_login") fun raider =>
    withJ (event.get "viewers") fun viewers =>
    ([.printRaid raider viewers], .ok ())
  else ([], .ok ())

/-- The notification branch (src/main.py lines 177-179 plus dispatch):
reads subscription_type from metadata, indexes msg["payload"]["event"],
then dispatches. -/
def routeNotification (sendExc : Option String) (me_id : String) (msg : Json) :
    List Effect × Except String Unit :=
  withJ (metaGet msg "subscription_type") fun sub_type =>
  withJ (msg.index "payload") fun payload =>
  withJ (payload.index "event") fun event =>
  dispatch sendExc me_id sub_type event

/-- What the loop body does after the dedup bookkeeping: route the frame
if it is a notification, otherwise fall through to the next receive. -/
def afterDedup (sendExc : Option String) (me_id : String) (seen : List Json)
    (mtype : Option Json) (msg : Json) :
    List Json × List Effect × Except String Unit :=
  if isStrEq mtype "notification" then
    (seen, routeNotification sendExc me_id msg)
  else (seen, [], .ok ())

/-- One iteration of the while-True loop in run() (src/main.py lines
160-214), applied to an already-parsed frame: classify by message_type,
short-circuit keepalives, dedup by message_id, then route. Returns the
new seen_message_ids set, the actions performed, and either success or
the uncaught Python exception. -/
def processMsg (sendExc : Option String) (me_id : String) (seen : List Json)
    (msg : Json) : List Json × List Effect × Except String Unit :=
  match metaGet msg "message_type" with
  | .error e => (seen, [], .error e)
  | .ok mtype =>
    if isStrEq mtype "session_keepalive" then (seen, [], .ok ())
    else
      match metaGet msg "message_id" with
      | .error e => (seen, [], .error e)
      | .ok mid =>
        match mid with
        | some j =>
          if j.truthy then
            if seenHas seen j then (seen, [], .ok ())
            else afterDedup sendExc me_id (j :: seen) mtype msg
          else afterDedup sendExc me_id seen mtype msg
        | none => afterDedup sendExc me_id seen mtype msg

/-- The while-True loop itself, run over a finite prefix of the inbound
frame stream: frames are processed in order and an uncaught exception
from the body terminates the loop, as the source has no try/except. -/
def runLoop (sendExc : Option String) (me_id : String) :
    List Json → List Json → List Json × List Effect × Except String Unit
  | seen, [] => (seen, [], .ok ())
  | seen, f :: rest =>
    match processMsg sendExc me_id seen f with
    | (seen1, acts, .error e) => (seen1, acts, .error e)
    | (seen1, acts, .ok _) =>
      match runLoop sendExc me_id seen1 rest with
      | (seen2, acts2, r) => (seen2, acts ++ acts2, r)

/-- One entry of the subscription catalog: the arguments run() passes to
safe_create_sub. -/
structure CatalogEntry where
  sub_type : String
  version : String
  condition : List (String × String)

/-- MOCK_UNSUPPORTED_SUBS (src/main.py lines 23-30). -/
def MOCK_UNSUPPORTED_SUBS : List String :=
  ["channel.chat.message", "channel.chat.notification", "channel.chat.message_delete",
   "channel.chat.clear", "channel.chat.clear_user_messages"]

/-- USE_MOCK_EVENTSUB = 0 in the source. -/
def USE_MOCK_EVENTSUB : Bool := false

/-- The outcome of the HTTP POST made by create_eventsub_subscription. -/
structure HttpResp where
  ok : Bool
  status_code : Nat
  text : String
  body : Json

/-- create_eventsub_subscription (src/main.py lines 71-88): POSTs one
subscription; on a non-OK response raises RuntimeError with the message
built in the source, otherwise returns the response body. `cap` is the
external registration capability. -/
def create_eventsub_subscription (cap : CatalogEntry → HttpResp)
    (e : CatalogEntry) : Except String Json :=
  let r := cap e
  if r.ok then .ok r.body
  else .error ("Create sub failed for " ++ e.sub_type ++ " (" ++
    toString r.status_code ++ "): " ++ r.text)

/-- safe_create_sub (src/main.py lines 64-68): skips the entry (returning
None) only when USE_MOCK_EVENTSUB is set and the type is in
MOCK_UNSUPPORTED_SUBS; otherwise calls create_eventsub_subscription,
whose RuntimeError propagates. -/
def safe_create_sub (useMock : Bool) (cap : CatalogEntry → HttpResp)
    (e : CatalogEntry) : Except String (Option Json) :=
  if useMock && MOCK_UNSUPPORTED_SUBS.contains e.sub_type then .ok none
  else
    match create_eventsub_subscription cap e with
    | .ok j => .ok (some j)
    | .error err => .error err

/-- The registration phase of run() (src/main.py lines 117-156)
generalised to a catalog list: safe_create_sub is called once per entry,
in order, with no surrounding try/except, so an exception aborts the
remaining calls. Returns the list of sub_types for which the external
call was actually issued, and either the per-entry results or the
uncaught exception. -/
def register_sequence (useMock : Bool) (cap : CatalogEntry → HttpResp) :
    List CatalogEntry → List String × Except String (List (Option Json))
  | [] => ([], .ok [])
  | e :: rest =>
    let skipped := useMock && MOCK_UNSUPPORTED_SUBS.contains e.sub_type
    match safe_create_sub useMock cap e with
    | .error err => (if skipped then [] else [e.sub_type], .error err)
    | .ok o =>
      match register_sequence useMock cap rest with
      | (tr, r) =>
        ((if skipped then tr else e.sub_type :: tr),
         match r with
         | .ok os => .ok (o :: os)
         | .error err => .error err)

/-- The six catalog entries run() registers (src/main.py lines 117-156),
in source order. -/
def catalog (me_id : String) : List CatalogEntry :=
  [⟨"channel.chat.message", "1", [("broadcaster_user_id", me_id), ("user_id", me_id)]⟩,
   ⟨"channel.subscribe", "1", [("broadcaster_user_id", me_id)]⟩,
   ⟨"channel.subscription.message", "1", [("broadcaster_user_id", me_id)]⟩,
   ⟨"channel.subscription.gift", "1", [("broadcaster_user_id", me_id)]⟩,
   ⟨"channel.cheer", "1", [("broadcaster_user_id", me_id)]⟩,
   ⟨"channel.raid", "1", [("to_broadcaster_user_id", me_id)]⟩]

/-- A notification frame of the shape delivered by the transport
(spec section 6). -/
def notifFrame (mid sub_type : String) (event : Json) : Json :=
  .obj [("metadata", .obj [("message_type", .str "notification"),
                           ("message_id", .str mid),
                           ("subscription_type", .str sub_type)]),
        ("payload", .obj [("event", event)])]

/-- The event payload of a chat-message notification. -/
def chatEvent (chatter text : String) : Json :=
  .obj [("chatter_user_login", .str chatter),
        ("message", .obj [("text", .str text)])]

/-- A keepalive frame. -/
def keepaliveFrame : Json :=
  .obj [("metadata", .obj [("message_type", .str "session_keepalive")])]

/-- A registration capability that rejects every request with HTTP 400. -/
def failingCap : CatalogEntry → HttpResp :=
  fun _ => ⟨false, 400, "Bad Request", Json.null⟩

/-- A registration capability that rejects exactly the third catalog
entry (channel.subscription.message) and accepts the rest. -/
def capFail3 : CatalogEntry → HttpResp :=
  fun e =>
    if e.sub_type = "channel.subscription.message" then ⟨false, 403, "forbidden", Json.null⟩
    else ⟨true, 202, "accepted", Json.obj []⟩

/-- A frame that is neither a keepalive nor a notification but carries a
message_id (e.g. a session_reconnect frame). -/
def reconnectFrame : Json :=
  .obj [("metadata", .obj [("message_type", .str "session_reconnect"),
                           ("message_id", .str "x1")])]

/-- A notification frame carrying no message_id. -/
def noIdNotifFrame : Json :=
  .obj [("metadata", .obj [("message_type", .str "notification"),
                           ("subscription_type", .str "channel.subscribe")]),
        ("payload", .obj [("event", .obj [])])]

/-- Unfolding lemma: comparing a JSON string against a literal is string
equality. -/
theorem isStrEq_some_str (t s : String) : isStrEq (some (.str t)) s = (t == s) := rfl

/-- Truthiness of a JSON string is nonemptiness. -/
theorem truthy_str (s : String) : (Json.str s).truthy = (s != "") := rfl

/-- A string id just added to the seen set is found there. -/
theorem seenHas_cons_self (seen : List Json) (m : String) :
    seenHas (Json.str m :: seen) (Json.str m) = true := by
  simp [seenHas, Json.beq]

/-- The dedup bookkeeping never changes the seen set after the add. -/
theorem afterDedup_fst (sendExc : Option String) (me_id : String) (seen : List Json)
    (mtype : Option Json) (msg : Json) :
    (afterDedup sendExc me_id seen mtype msg).1 = seen := by
  unfold afterDedup
  split <;> rfl

/-- Workhorse: a well-shaped notification frame with a fresh, nonempty
message_id has its id recorded and is routed to dispatch. -/
theorem processMsg_notif_fresh (sendExc : Option String) (me_id : String)
    (seen : List Json) (m st : String) (ev : Json)
    (hm : m ≠ "") (hfresh : seenHas seen (Json.str m) = false) :
    processMsg sendExc me_id seen (notifFrame m st ev) =
      (Json.str m :: seen, dispatch sendExc me_id (some (.str st)) ev) := by
  have h1 : metaGet (notifFrame m st ev) "message_type" =
      .ok (some (.str "notification")) := rfl
  have h2 : metaGet (notifFrame m st ev) "message_id" = .ok (some (.str m)) := rfl
  have hr : routeNotification sendExc me_id (notifFrame m st ev) =
      dispatch sendExc me_id (some (.str st)) ev := rfl
  unfold processMsg
  rw [h1, h2]
  simp only [isStrEq_some_str, truthy_str, String.reduceBEq, Bool.false_eq_true, if_false]
  simp only [bne_iff_ne, ne_eq, hm, not_false_eq_true, if_true, hfresh, Bool.false_eq_true,
    if_false, afterDedup, isStrEq_some_str, String.reduceBEq, if_true, hr]

/-- Workhorse: a notification frame whose nonempty message_id is already
seen is skipped entirely. -/
theorem processMsg_notif_dup (sendExc : Option String) (me_id : String)
    (seen : List Json) (m st : String) (ev : Json)
    (hm : m ≠ "") (hdup : seenHas seen (Json.str m) = true) :
    processMsg sendExc me_id seen (notifFrame m st ev) = (seen, [], .ok ()) := by
  have h1 : metaGet (notifFrame m st ev) "message_type" =
      .ok (some (.str "notification")) := rfl
  have h2 : metaGet (notifFrame m st ev) "message_id" = .ok (some (.str m)) := rfl
  unfold processMsg
  rw [h1, h2]
  simp only [isStrEq_some_str, truthy_str, String.reduceBEq, Bool.false_eq_true, if_false]
  simp only [bne_iff_ne, ne_eq, hm, not_false_eq_true, if_true, hdup, if_true]

/-- C6 (confirmed): a frame whose message_type is session_keepalive is a
no-op: the seen set is untouched, no effect is produced, no error is
raised, whatever else the frame carries. -/
theorem keepalive_no_op (sendExc : Option String) (me_id : String) (seen : List Json)
    (msg : Json)
    (h : metaGet msg "message_type" = .ok (some (.str "session_keepalive"))) :
    processMsg sendExc me_id seen msg = (seen, [], .ok ()) := by
  unfold processMsg
  rw [h]
  simp [isStrEq]

/-- Witness for keepalive_no_op at the concrete keepalive frame. -/
theorem keepalive_no_op_witness :
    processMsg none "me" [] keepaliveFrame = ([], [], .ok ()) :=
  keepalive_no_op none "me" [] keepaliveFrame rfl

/-- C3 (confirmed): feeding the same notification frame twice yields
exactly one handler invocation: the first pass records the id and runs
the handler once, the second pass on the updated seen set does nothing. -/
theorem dedup_single_invocation (sendExc : Option String) (me_id : String)
    (seen : List Json) (m : String)
    (hm : m ≠ "") (hfresh : seenHas seen (Json.str m) = false) :
    processMsg sendExc me_id seen (notifFrame m "channel.subscribe" (Json.obj [])) =
      (Json.str m :: seen, [.printSub none none none], .ok ())
    ∧ processMsg sendExc me_id (Json.str m :: seen)
        (notifFrame m "channel.subscribe" (Json.obj [])) =
      (Json.str m :: seen, [], .ok ()) :=
  ⟨(processMsg_notif_fresh sendExc me_id seen m "channel.subscribe" (Json.obj []) hm
      hfresh).trans rfl,
   processMsg_notif_dup sendExc me_id (Json.str m :: seen) m "channel.subscribe"
     (Json.obj []) hm (seenHas_cons_self seen m)⟩

/-- Witness for dedup_single_invocation at a concrete id. -/
theorem dedup_single_invocation_witness :
    processMsg none "me" [] (notifFrame "m1" "channel.subscribe" (Json.obj [])) =
      ([Json.str "m1"], [.printSub none none none], .ok ())
    ∧ processMsg none "me" [Json.str "m1"]
        (notifFrame "m1" "channel.subscribe" (Json.obj [])) =
      ([Json.str "m1"], [], .ok ()) :=
  dedup_single_invocation none "me" [] "m1" (by decide) rfl

/-- Dispatch on a subscription_type outside the six known tags is a
no-op. -/
theorem dispatch_unknown (sendExc : Option String) (me_id : String) (st : String)
    (ev : Json)
    (hst : st ∉ ["channel.chat.message", "channel.subscribe",
      "channel.subscription.message", "channel.subscription.gift", "channel.cheer",
      "channel.raid"]) :
    dispatch sendExc me_id (some (.str st)) ev = ([], .ok ()) := by
  simp only [List.mem_cons, List.mem_singleton, not_or] at hst
  obtain ⟨n1, n2, n3, n4, n5, n6⟩ := hst
  simp [dispatch, isStrEq_some_str, n1, n2, n3, n4, n5, n6]

/-- C7 (confirmed): a fresh notification frame whose subscription_type is
not in the known handler set produces no handler call and no error; the
loop body completes normally (its id is still recorded). -/
theorem unknown_sub_type_ignored (sendExc : Option String) (me_id : String)
    (seen : List Json) (m st : String) (ev : Json)
    (hm : m ≠ "") (hfresh : seenHas seen (Json.str m) = false)
    (hst : st ∉ ["channel.chat.message", "channel.subscribe",
      "channel.subscription.message", "channel.subscription.gift", "channel.cheer",
      "channel.raid"]) :
    processMsg sendExc me_id seen (notifFrame m st ev) =
      (Json.str m :: seen, [], .ok ()) := by
  rw [processMsg_notif_fresh sendExc me_id seen m st ev hm hfresh,
    dispatch_unknown sendExc me_id st ev hst]

/-- Witness for unknown_sub_type_ignored at a concrete unknown tag. -/
theorem unknown_sub_type_ignored_witness :
    processMsg none "me" [] (notifFrame "m1" "channel.follow" (Json.obj [("a", .num 1)])) =
      ([Json.str "m1"], [], .ok ()) :=
  unknown_sub_type_ignored none "me" [] "m1" "channel.follow" (Json.obj [("a", .num 1)])
    (by decide) rfl (by decide)

/-- C8 (confirmed): for a fresh chat-message notification the outbound
send capability is invoked, with the fixed reply text, exactly when the
message text stripped of surrounding whitespace and lowercased equals
"!ping"; otherwise only the print happens. -/
theorem ping_command_reply (me_id : String) (seen : List Json) (m chatter text : String)
    (hm : m ≠ "") (hfresh : seenHas seen (Json.str m) = false) :
    processMsg none me_id seen
        (notifFrame m "channel.chat.message" (chatEvent chatter text)) =
      (Json.str m :: seen,
       Effect.printChat (.str chatter) (.str text) ::
         (if pyLower (pyStrip text) = "!ping" then
            [Effect.sendChat me_id me_id "pong (via Helix)"] else []),
       .ok ()) := by
  rw [processMsg_notif_fresh none me_id seen m "channel.chat.message"
    (chatEvent chatter text) hm hfresh]
  by_cases hp : pyLower (pyStrip text) = "!ping"
  · simp [dispatch, chatEvent, isStrEq_some_str, withJ, Json.index, List.lookup, hp]
  · simp [dispatch, chatEvent, isStrEq_some_str, withJ, Json.index, List.lookup, hp]

/-- Witness for ping_command_reply: the text "  !PING  " triggers exactly
one outbound reply with the fixed payload. -/
theorem ping_command_reply_witness :
    processMsg none "me" []
        (notifFrame "m1" "channel.chat.message" (chatEvent "alice" "  !PING  ")) =
      ([Json.str "m1"],
       [Effect.printChat (.str "alice") (.str "  !PING  "),
        Effect.sendChat "me" "me" "pong (via Helix)"],
       .ok ()) :=
  (ping_command_reply "me" [] "m1" "alice" "  !PING  " (by decide) rfl).trans
    (by rw [if_pos (show pyLower (pyStrip "  !PING  ") = "!ping" by decide)])

/-- C10 (confirmed): for a non-keepalive frame with a fresh, nonempty
message_id the id is recorded no matter how the rest of the body fares
(in particular it stays recorded when the handler raises), and a
redelivery of the same frame against the updated seen set invokes no
handler and changes nothing. -/
theorem dedup_records_before_handler (sendExc : Option String) (me_id : String)
    (seen : List Json) (msg : Json) (mt : Option Json) (m : String)
    (hmt : metaGet msg "message_type" = .ok mt)
    (hka : isStrEq mt "session_keepalive" = false)
    (hmid : metaGet msg "message_id" = .ok (some (.str m)))
    (hm : m ≠ "")
    (hfresh : seenHas seen (Json.str m) = false) :
    (processMsg sendExc me_id seen msg).1 = Json.str m :: seen
    ∧ processMsg sendExc me_id (Json.str m :: seen) msg =
        (Json.str m :: seen, [], .ok ()) := by
  constructor
  · simp only [processMsg, hmt, hmid, hka, Bool.false_eq_true, if_false, truthy_str,
      bne_iff_ne, ne_eq, hm, not_false_eq_true, if_true, hfresh]
    exact afterDedup_fst sendExc me_id (Json.str m :: seen) mt msg
  · simp only [processMsg, hmt, hmid, hka, Bool.false_eq_true, if_false, truthy_str,
      bne_iff_ne, ne_eq, hm, not_false_eq_true, if_true, seenHas_cons_self]

/-- Witness for dedup_records_before_handler at a chat notification whose
handler raises KeyError: the id is recorded anyway and redelivery is a
no-op. -/
theorem dedup_records_before_handler_witness :
    (processMsg none "me" [] (notifFrame "m1" "channel.chat.message" (Json.obj []))).1 =
      [Json.str "m1"]
    ∧ processMsg none "me" [Json.str "m1"]
        (notifFrame "m1" "channel.chat.message" (Json.obj [])) =
      ([Json.str "m1"], [], .ok ()) :=
  dedup_records_before_handler none "me" []
    (notifFrame "m1" "channel.chat.message" (Json.obj []))
    (some (.str "notification")) "m1" rfl rfl rfl (by decide) rfl

/-- C4 counterexample: the chat-message handler is not defensive: a
recognized chat notification whose payload lacks chatter_user_login
produces no observable action and raises KeyError instead of defaulting. -/
theorem chat_handler_not_defensive_cex :
    processMsg none "me" [] (notifFrame "m1" "channel.chat.message" (Json.obj [])) =
      ([Json.str "m1"], [], .error "KeyError: chatter_user_login") := rfl

/-- C4 (corrected): the subscribe, resub, gift, cheer and raid handlers
extract their fields with defaulting .get calls and complete their print
action even on an empty payload, but the chat-message handler indexes
chatter_user_login and message.text directly and raises KeyError when
they are absent. -/
theorem handlers_defensive_except_chat (sendExc : Option String) (me_id : String)
    (seen : List Json) (m : String)
    (hm : m ≠ "") (hfresh : seenHas seen (Json.str m) = false) :
    processMsg sendExc me_id seen (notifFrame m "channel.subscribe" (Json.obj [])) =
      (Json.str m :: seen, [.printSub none none none], .ok ())
    ∧ processMsg sendExc me_id seen
        (notifFrame m "channel.subscription.message" (Json.obj [])) =
      (Json.str m :: seen, [.printResub none none none (.str "")], .ok ())
    ∧ processMsg sendExc me_id seen
        (notifFrame m "channel.subscription.gift" (Json.obj [])) =
      (Json.str m :: seen, [.printGift none none none], .ok ())
    ∧ processMsg sendExc me_id seen (notifFrame m "channel.cheer" (Json.obj [])) =
      (Json.str m :: seen, [.printCheer none none (.str "")], .ok ())
    ∧ processMsg sendExc me_id seen (notifFrame m "channel.raid" (Json.obj [])) =
      (Json.str m :: seen, [.printRaid none none], .ok ())
    ∧ processMsg sendExc me_id seen
        (notifFrame m "channel.chat.message" (Json.obj [])) =
      (Json.str m :: seen, [], .error "KeyError: chatter_user_login") :=
  ⟨(processMsg_notif_fresh sendExc me_id seen m "channel.subscribe" (Json.obj []) hm
      hfresh).trans rfl,
   (processMsg_notif_fresh sendExc me_id seen m "channel.subscription.message"
      (Json.obj []) hm hfresh).trans rfl,
   (processMsg_notif_fresh sendExc me_id seen m "channel.subscription.gift"
      (Json.obj []) hm hfresh).trans rfl,
   (processMsg_notif_fresh sendExc me_id seen m "channel.cheer" (Json.obj []) hm
      hfresh).trans rfl,
   (processMsg_notif_fresh sendExc me_id seen m "channel.raid" (Json.obj []) hm
      hfresh).trans rfl,
   (processMsg_notif_fresh sendExc me_id seen m "channel.chat.message" (Json.obj []) hm
      hfresh).trans rfl⟩

/-- Witness for handlers_defensive_except_chat at a concrete id. -/
theorem handlers_defensive_except_chat_witness :
    processMsg none "me" [] (notifFrame "w4" "channel.cheer" (Json.obj [])) =
      ([Json.str "w4"], [.printCheer none none (.str "")], .ok ())
    ∧ processMsg none "me" [] (notifFrame "w4" "channel.chat.message" (Json.obj [])) =
      ([Json.str "w4"], [], .error "KeyError: chatter_user_login") :=
  ⟨(handlers_defensive_except_chat none "me" [] "w4" (by decide) rfl).2.2.2.1,
   (handlers_defensive_except_chat none "me" [] "w4" (by decide) rfl).2.2.2.2.2⟩

/-- C5 counterexample: a frame that is not a notification (message_type
session_reconnect) but carries a message_id has that id recorded in the
seen set, contradicting that dedup bookkeeping applies only to
notification frames. -/
theorem dedup_not_only_notifications_cex :
    metaGet reconnectFrame "message_type" = .ok (some (.str "session_reconnect"))
    ∧ (processMsg none "me" [] reconnectFrame).1 = [Json.str "x1"] :=
  ⟨rfl, rfl⟩

/-- C5 (corrected): dedup applies to every non-keepalive frame, whatever
its message_kind: a fresh, nonempty message_id is recorded; and a frame
carrying no message_id is never deduplicated: the seen set is unchanged
and the frame proceeds to routing. -/
theorem dedup_all_non_keepalive (sendExc : Option String) (me_id : String)
    (seen : List Json) (msg : Json) (mt : Option Json)
    (hmt : metaGet msg "message_type" = .ok mt)
    (hka : isStrEq mt "session_keepalive" = false) :
    (∀ m : String, metaGet msg "message_id" = .ok (some (.str m)) → m ≠ "" →
      seenHas seen (Json.str m) = false →
      (processMsg sendExc me_id seen msg).1 = Json.str m :: seen)
    ∧ (metaGet msg "message_id" = .ok none →
      processMsg sendExc me_id seen msg = afterDedup sendExc me_id seen mt msg
      ∧ (afterDedup sendExc me_id seen mt msg).1 = seen) := by
  constructor
  · intro m hmid hm hfresh
    simp only [processMsg, hmt, hmid, hka, Bool.false_eq_true, if_false, truthy_str,
      bne_iff_ne, ne_eq, hm, not_false_eq_true, if_true, hfresh]
    exact afterDedup_fst sendExc me_id (Json.str m :: seen) mt msg
  · intro hmid
    refine ⟨?_, afterDedup_fst sendExc me_id seen mt msg⟩
    simp only [processMsg, hmt, hmid, hka, Bool.false_eq_true, if_false]

/-- Witness for dedup_all_non_keepalive: a reconnect frame with id "x1"
gets recorded; a notification without id leaves the seen set unchanged
and is still routed. -/
theorem dedup_all_non_keepalive_witness :
    (processMsg none "me" [] reconnectFrame).1 = [Json.str "x1"]
    ∧ (processMsg none "me" [] noIdNotifFrame =
        afterDedup none "me" [] (some (.str "notification")) noIdNotifFrame
      ∧ (afterDedup none "me" [] (some (.str "notification")) noIdNotifFrame).1 = []) :=
  ⟨(dedup_all_non_keepalive none "me" [] reconnectFrame
      (some (.str "session_reconnect")) rfl rfl).1 "x1" rfl (by decide) rfl,
   (dedup_all_non_keepalive none "me" [] noIdNotifFrame
      (some (.str "notification")) rfl rfl).2 rfl⟩

/-- C1 counterexample: with the source configuration
(USE_MOCK_EVENTSUB = 0) and a registration capability that rejects every
request, registering the six-entry catalog raises on the first entry: the
RuntimeError propagates, only one external call is issued, and no outcome
report is produced, contradicting catch-and-continue with six outcomes. -/
theorem registration_failure_raises_cex :
    register_sequence USE_MOCK_EVENTSUB failingCap (catalog "me") =
      (["channel.chat.message"],
       .error "Create sub failed for channel.chat.message (400): Bad Request") := rfl

/-- C1 (corrected): if the external registration call for entry k of the
catalog returns a non-OK response, safe_create_sub raises RuntimeError
and nothing catches it: entries 1..k-1 were attempted, entry k was
attempted and failed, entries k+1..n are never attempted, and the
sequence aborts with the error rather than producing n outcomes. Only
mock-unsupported entries under USE_MOCK_EVENTSUB (which the source sets
to 0) are ever skipped individually. -/
theorem registration_failure_aborts_rest (cap : CatalogEntry → HttpResp)
    (pre post : List CatalogEntry) (e : CatalogEntry)
    (hpre : ∀ x ∈ pre, (cap x).ok = true) (he : (cap e).ok = false) :
    register_sequence USE_MOCK_EVENTSUB cap (pre ++ e :: post) =
      (pre.map (fun x => x.sub_type) ++ [e.sub_type],
       .error ("Create sub failed for " ++ e.sub_type ++ " (" ++
         toString (cap e).status_code ++ "): " ++ (cap e).text)) := by
  induction pre with
  | nil =>
      simp only [List.nil_append, List.map_nil, USE_MOCK_EVENTSUB, register_sequence,
        safe_create_sub, Bool.false_and, Bool.false_eq_true, if_false,
        create_eventsub_subscription, he]
  | cons x rest ih =>
      have hx : (cap x).ok = true := hpre x (List.mem_cons_self x rest)
      have hrest : ∀ y ∈ rest, (cap y).ok = true :=
        fun y hy => hpre y (List.mem_cons_of_mem x hy)
      have hseq : register_sequence USE_MOCK_EVENTSUB cap (rest.append (e :: post)) =
          (rest.map (fun x => x.sub_type) ++ [e.sub_type],
           .error ("Create sub failed for " ++ e.sub_type ++ " (" ++
             toString (cap e).status_code ++ "): " ++ (cap e).text)) := ih hrest
      simp only [List.cons_append, USE_MOCK_EVENTSUB, register_sequence, safe_create_sub,
        Bool.false_and, Bool.false_eq_true, if_false, create_eventsub_subscription, hx,
        if_true, List.map_cons] at hseq ⊢
      rw [hseq]

/-- Witness for registration_failure_aborts_rest: a capability rejecting
the third catalog entry aborts after three attempts. -/
theorem registration_failure_aborts_rest_witness :
    register_sequence USE_MOCK_EVENTSUB capFail3
        ([⟨"channel.chat.message", "1",
            [("broadcaster_user_id", "me"), ("user_id", "me")]⟩,
          ⟨"channel.subscribe", "1", [("broadcaster_user_id", "me")]⟩] ++
         ⟨"channel.subscription.message", "1", [("broadcaster_user_id", "me")]⟩ ::
         [⟨"channel.subscription.gift", "1", [("broadcaster_user_id", "me")]⟩,
          ⟨"channel.cheer", "1", [("broadcaster_user_id", "me")]⟩,
          ⟨"channel.raid", "1", [("to_broadcaster_user_id", "me")]⟩]) =
      (["channel.chat.message", "channel.subscribe", "channel.subscription.message"],
       .error "Create sub failed for channel.subscription.message (403): forbidden") :=
  (registration_failure_aborts_rest capFail3
    [⟨"channel.chat.message", "1", [("broadcaster_user_id", "me"), ("user_id", "me")]⟩,
     ⟨"channel.subscribe", "1", [("broadcaster_user_id", "me")]⟩]
    [⟨"channel.subscription.gift", "1", [("broadcaster_user_id", "me")]⟩,
     ⟨"channel.cheer", "1", [("broadcaster_user_id", "me")]⟩,
     ⟨"channel.raid", "1", [("to_broadcaster_user_id", "me")]⟩]
    ⟨"channel.subscription.message", "1", [("broadcaster_user_id", "me")]⟩
    (by decide) (by decide)).trans rfl

/-- C2 counterexample: an error raised by the outbound send capability
while handling a "!ping" chat notification propagates out of the session
loop: the loop terminates with the error and the following frame is never
processed, contradicting catch-at-loop-level and continue. -/
theorem handler_error_crashes_loop_cex :
    runLoop (some "HTTPError: 500 Server Error") "me" []
        [notifFrame "m1" "channel.chat.message" (chatEvent "bob" "!ping"),
         notifFrame "m2" "channel.subscribe" (Json.obj [])] =
      ([Json.str "m1"],
       [Effect.printChat (.str "bob") (.str "!ping"),
        Effect.sendChat "me" "me" "pong (via Helix)"],
       .error "HTTPError: 500 Server Error") := rfl

/-- C2 (corrected): the session loop contains no exception handler: any
failure raised while processing one frame (for instance an outbound send
error) propagates, terminating the loop immediately; subsequent frames
are not received or processed. -/
theorem handler_error_terminates_loop (sendExc : Option String) (me_id : String)
    (seen : List Json) (msg : Json) (rest : List Json) (e : String)
    (h : (processMsg sendExc me_id seen msg).2.2 = .error e) :
    runLoop sendExc me_id seen (msg :: rest) =
      ((processMsg sendExc me_id seen msg).1, (processMsg sendExc me_id seen msg).2.1,
       .error e) := by
  rcases hp : processMsg sendExc me_id seen msg with ⟨s1, a1, r1⟩
  rw [hp] at h
  simp only at h
  subst h
  simp only [runLoop, hp]

/-- Witness for handler_error_terminates_loop at a concrete failing send. -/
theorem handler_error_terminates_loop_witness :
    runLoop (some "boom") "me" []
        [notifFrame "w2" "channel.chat.message" (chatEvent "carol" "!ping"),
         keepaliveFrame] =
      ((processMsg (some "boom") "me" []
          (notifFrame "w2" "channel.chat.message" (chatEvent "carol" "!ping"))).1,
       (processMsg (some "boom") "me" []
          (notifFrame "w2" "channel.chat.message" (chatEvent "carol" "!ping"))).2.1,
       .error "boom") :=
  handler_error_terminates_loop (some "boom") "me" []
    (notifFrame "w2" "channel.chat.message" (chatEvent "carol" "!ping"))
    [keepaliveFrame] "boom" rfl

/-- C9 (confirmed): send_chat_message submits the message unchanged when
it has at most 500 characters and truncates it to exactly 500 characters
when longer. -/
theorem send_message_truncation (b s m : String) :
    (m.length ≤ 500 → (send_chat_message b s m).message = m)
    ∧ (500 < m.length → (send_chat_message b s m).message.length = 500) := by
  constructor
  · intro h
    simp only [send_chat_message]
    rw [String.take_eq, List.take_of_length_le h]
  · intro h
    simp only [send_chat_message]
    rw [String.take_eq]
    have hlen : (String.mk (m.data.take 500)).length = (m.data.take 500).length := rfl
    rw [hlen, List.length_take]
    have hd : m.length = m.data.length := rfl
    omega

/-- Witness for send_message_truncation: a short message is unchanged, a
501-character message comes out with exactly 500 characters. -/
theorem send_message_truncation_witness :
    (send_chat_message "b" "s" "hi").message = "hi"
    ∧ (send_chat_message "b" "s" (String.mk (List.replicate 501 'a'))).message.length = 500 := by
  constructor
  · exact (send_message_truncation "b" "s" "hi").1 (by decide)
  · refine (send_message_truncation "b" "s" (String.mk (List.replicate 501 'a'))).2 ?_
    have h : (String.mk (List.replicate 501 'a')).length = (List.replicate 501 'a').length := rfl
    rw [h, List.length_replicate]
    omega
